import Mathlib

/-!
Shallow embedding of `src/camel_terminal_toolkit/server.py` (the CAMEL
Terminal Toolkit MCP server).  The two request handlers, `list_tools`
(schema inference from callable signatures) and `call_tool` (dispatch),
are modelled as pure Lean functions over an explicit representation of
Python callables; the process-wide lazily-initialized toolkit registry
is modelled as an explicit state machine over request events.
-/

namespace CamelTerminalToolkit

/-- A Python type annotation as compared by `param.annotation == str` /
`== int` / `== bool` in `list_tools`; `other` covers every annotation
object that is none of those three (e.g. `float`, `Optional[str]`). -/
inductive PyAnn where
  | str
  | int
  | bool
  | other (tag : String)
deriving DecidableEq

/-- Python runtime values, as far as the server inspects them:
`call_tool` only tests `isinstance(result, str)` and otherwise applies
`str(...)`; defaults are stored verbatim. -/
inductive PyValue where
  | pstr (s : String)
  | pint (n : Int)
  | pbool (b : Bool)
  | pnone
deriving DecidableEq

/-- Python `str(...)` on the values we model. -/
def pyStr : PyValue → String
  | .pstr s => s
  | .pint n => toString n
  | .pbool b => if b then "True" else "False"
  | .pnone => "None"

/-- `isinstance(result, str)`. -/
def PyValue.isStr : PyValue → Bool
  | .pstr _ => true
  | _ => false

/-- The `arguments` dict of a call request. -/
abbrev Args := List (String × PyValue)

/-- One parameter of a Python function: its name, its annotation
(`none` models `inspect.Parameter.empty`), and its default value
(`none` models `inspect.Parameter.empty`). -/
structure Param where
  name : String
  annot : Option PyAnn
  default : Option PyValue
deriving DecidableEq

/-- A callable exposed by the toolkit, as the server sees it through
`func_tool.func`: `name` is `func.__name__`, `doc` is `func.__doc__`
(`none` when absent), `pyParams` is the full parameter list of the
underlying `def` (receiver first when it is a method), `isBoundMethod`
records whether the callable is a bound method, and `impl` is its
run-time behaviour — `Except.error msg` models raising an exception
whose `str(...)` is `msg`. -/
structure Callable where
  name : String
  doc : Option String
  pyParams : List Param
  isBoundMethod : Bool
  impl : Args → Except String PyValue

/-- Modelled Python semantics: `inspect.signature(func)` on a bound
method omits the receiver (its first declared parameter); on a plain
function it returns all declared parameters.  This is the
`sig.parameters` that `list_tools` iterates over. -/
def signatureParams (c : Callable) : List Param :=
  if c.isBoundMethod then c.pyParams.tail else c.pyParams

/-- One entry of the `properties` mapping built by `list_tools`:
`{"type": param_type, "description": param_desc}` plus the optional
`"default"` key. -/
structure ParamInfo where
  type : String
  description : String
  default : Option PyValue
deriving DecidableEq

/-- The `param_type` computation of `list_tools`: start from the
default `"string"`, and when an annotation is present classify
`str → "string"`, `int → "number"`, `bool → "boolean"`; any other
annotation leaves the default in place. -/
def classifyAnnot : Option PyAnn → String
  | some .str => "string"
  | some .int => "number"
  | some .bool => "boolean"
  | some (.other _) => "string"
  | none => "string"

/-- The `param_info` dict built for one parameter in `list_tools`. -/
def paramInfoOf (p : Param) : ParamInfo :=
  { type := classifyAnnot p.annot
  , description := "Parameter " ++ p.name
  , default := p.default }

/-- The `Tool` descriptor built by `list_tools`: `name`,
`description`, and the `inputSchema`'s `properties` (an ordered
mapping) and `required` list. -/
structure Tool where
  name : String
  description : String
  properties : List (String × ParamInfo)
  required : List String
deriving DecidableEq

/-- Python `s.strip()`: remove leading and trailing whitespace
characters (we model the ASCII whitespace that occurs in docstrings). -/
def pyStrip (s : String) : String :=
  ⟨((s.data.dropWhile Char.isWhitespace).reverse.dropWhile Char.isWhitespace).reverse⟩

/-- Python `s.split('\n')[0]`: the prefix of the string up to the first
newline (`split` always yields at least one piece, so the indexing is
total). -/
def firstLine (s : String) : String :=
  ⟨s.data.takeWhile fun ch => ch != '\n'⟩

/-- `func.__doc__ or f"Execute {func_name}"`: Python's `or` takes the
fallback both when `__doc__` is `None` and when it is the empty string
(an empty string is falsy). -/
def effectiveDoc (c : Callable) : String :=
  match c.doc with
  | some s => if s = "" then "Execute " ++ c.name else s
  | none => "Execute " ++ c.name

/-- The body of the `for func_tool in function_tools` loop of
`list_tools`: build one descriptor from one callable. -/
def descriptorOf (c : Callable) : Tool :=
  { name := c.name
  , description := pyStrip (firstLine (effectiveDoc c))
  , properties := (signatureParams c).map fun p => (p.name, paramInfoOf p)
  , required := ((signatureParams c).filter fun p => p.default.isNone).map Param.name }

/-- `list_tools` on a built toolkit: one descriptor per callable, in
order. -/
def list_tools (tk : List Callable) : List Tool :=
  tk.map descriptorOf

/-- An MCP `TextContent` block. -/
structure TextContent where
  type : String
  text : String
deriving DecidableEq

/-- The observable outcome of one `call_tool` request: the returned
content blocks and the messages passed to `logger.error`. -/
structure CallOutcome where
  content : List TextContent
  log : List String
deriving DecidableEq

/-- The lookup loop of `call_tool`: first callable whose `__name__`
equals `name` (exact string match), else `None`. -/
def findTool (tk : List Callable) (name : String) : Option Callable :=
  tk.find? fun c => c.name == name

/-- The body of `call_tool` after initialization, i.e. the `try`
block: look the tool up, report `"Tool '<name>' not found"` when
absent, otherwise invoke it; a raised exception is caught, logged, and
reported as `"Error calling tool <name>: <message>"`; a string result
is returned verbatim, any other result through `str(...)`. -/
def call_tool_dispatch (tk : List Callable) (name : String) (args : Args) :
    CallOutcome :=
  match findTool tk name with
  | none =>
      { content := [{ type := "text", text := "Tool '" ++ name ++ "' not found" }]
      , log := [] }
  | some c =>
      match c.impl args with
      | .ok (.pstr s) =>
          { content := [{ type := "text", text := s }], log := [] }
      | .ok r =>
          { content := [{ type := "text", text := pyStr r }], log := [] }
      | .error e =>
          { content := [{ type := "text"
                        , text := "Error calling tool " ++ name ++ ": " ++ e }]
          , log := ["Error calling tool " ++ name ++ ": " ++ e] }

/-- The toolkit configuration `toolkit_kwargs : Dict[str, Any]`. -/
abbrev Config := List (String × PyValue)

/-- The module-level mutable state of the server process: the global
`terminal_toolkit` (a built toolkit is represented by its
`get_tools()` list), the global `toolkit_kwargs`, and a ghost counter
of how many times the `TerminalToolkit(**toolkit_kwargs)` factory has
run. -/
structure SState where
  terminal_toolkit : Option (List Callable)
  toolkit_kwargs : Config
  factoryCalls : Nat

/-- `initialize_toolkit()`: `if not terminal_toolkit:` build
`TerminalToolkit(**toolkit_kwargs)` (a toolkit object is always
truthy, so the falsy test is exactly the `None` test). -/
def initialize_toolkit (factory : Config → List Callable) (s : SState) : SState :=
  if s.terminal_toolkit.isNone then
    { terminal_toolkit := some (factory s.toolkit_kwargs)
    , toolkit_kwargs := s.toolkit_kwargs
    , factoryCalls := s.factoryCalls + 1 }
  else s

/-- The guard shared by both handlers:
`if not terminal_toolkit: initialize_toolkit()`. -/
def handleRequest (factory : Config → List Callable) (s : SState) : SState :=
  if s.terminal_toolkit.isNone then initialize_toolkit factory s else s

/-- The events a process sees: a `list_tools` request, a `call_tool`
request, or a (re)assignment of the global `toolkit_kwargs`. -/
inductive Event where
  | listReq
  | callReq (name : String) (args : Args)
  | setConfig (k : Config)

/-- Whether the event is one of the two request handlers. -/
def Event.isHandler : Event → Bool
  | .setConfig _ => false
  | _ => true

/-- One event's effect on the module state (both handlers run the same
lazy-initialization guard before their pure work). -/
def step (factory : Config → List Callable) (s : SState) : Event → SState
  | .listReq => handleRequest factory s
  | .callReq _ _ => handleRequest factory s
  | .setConfig k => { s with toolkit_kwargs := k }

/-- A whole request trace. -/
def run (factory : Config → List Callable) (s : SState) (es : List Event) : SState :=
  es.foldl (step factory) s

/-- Fallible variant of `initialize_toolkit` for a factory whose
constructor may raise (e.g. a bad configuration):
`TerminalToolkit(**toolkit_kwargs)` raising is NOT caught here. -/
def initialize_toolkitE (factoryE : Config → Except String (List Callable))
    (s : SState) : Except String SState :=
  if s.terminal_toolkit.isNone then
    (factoryE s.toolkit_kwargs).map fun tk =>
      { terminal_toolkit := some tk
      , toolkit_kwargs := s.toolkit_kwargs
      , factoryCalls := s.factoryCalls + 1 }
  else .ok s

/-- `call_tool` as written: the lazy-initialization guard runs BEFORE
the `try:` block, so a factory failure propagates out of the handler,
while everything after initialization is inside the `try` and always
produces a response. -/
def call_toolE (factoryE : Config → Except String (List Callable))
    (s : SState) (name : String) (args : Args) :
    Except String (SState × CallOutcome) :=
  match (if s.terminal_toolkit.isNone then initialize_toolkitE factoryE s
         else .ok s) with
  | .error e => .error e
  | .ok s' => .ok (s', call_tool_dispatch (s'.terminal_toolkit.getD []) name args)

/-! ### Concrete callables for witnesses -/

/-- Behaviour of a demo `echo` method: return argument `x`. -/
def echoImpl : Args → Except String PyValue := fun args =>
  match args.lookup "x" with
  | some v => .ok v
  | none => .error "echo missing required argument x"

/-- A demo method-backed tool `echo(self, x: str)`. -/
def echoCallable : Callable :=
  { name := "echo"
  , doc := some "Echo the input string.\n\nArgs:\n    x: the value"
  , pyParams := [ { name := "self", annot := none, default := none }
                , { name := "x", annot := some .str, default := none } ]
  , isBoundMethod := true
  , impl := echoImpl }

/-- A demo tool that always raises `ValueError("bad input")`. -/
def boomCallable : Callable :=
  { name := "boom"
  , doc := none
  , pyParams := [ { name := "self", annot := none, default := none } ]
  , isBoundMethod := true
  , impl := fun _ => .error "bad input" }

/-- A demo tool with a defaulted parameter and a non-string result. -/
def shellExecCallable : Callable :=
  { name := "shell_exec"
  , doc := some "Execute a shell command."
  , pyParams := [ { name := "self", annot := none, default := none }
                , { name := "command", annot := some .str, default := none }
                , { name := "block", annot := some .bool
                  , default := some (.pbool true) } ]
  , isBoundMethod := true
  , impl := fun _ => .ok .pnone }

/-- A demo toolkit, as `terminal_toolkit.get_tools()` would yield it. -/
def demoToolkit : List Callable := [echoCallable, boomCallable, shellExecCallable]

/-- A callable whose docstring is present but empty. -/
def emptyDocCallable : Callable :=
  { name := "noop"
  , doc := some ""
  , pyParams := []
  , isBoundMethod := false
  , impl := fun _ => .ok .pnone }

/-! ### Theorems -/

/-- Every branch of the dispatcher returns exactly one `text` block. -/
theorem call_tool_dispatch_shape (tk : List Callable) (name : String) (args : Args) :
    ∃ t, (call_tool_dispatch tk name args).content = [{ type := "text", text := t }] := by
  cases hf : findTool tk name with
  | none =>
    exact ⟨"Tool '" ++ name ++ "' not found", by simp [call_tool_dispatch, hf]⟩
  | some c =>
    cases hi : c.impl args with
    | error e =>
      exact ⟨"Error calling tool " ++ name ++ ": " ++ e,
        by simp [call_tool_dispatch, hf, hi]⟩
    | ok r =>
      cases r with
      | pstr s => exact ⟨s, by simp [call_tool_dispatch, hf, hi]⟩
      | pint n => exact ⟨pyStr (.pint n), by simp [call_tool_dispatch, hf, hi]⟩
      | pbool b => exact ⟨pyStr (.pbool b), by simp [call_tool_dispatch, hf, hi]⟩
      | pnone => exact ⟨pyStr .pnone, by simp [call_tool_dispatch, hf, hi]⟩

/-- Claim C3: a `call_tool` request whose name matches no registered
callable's identifier (exact string match) yields a single text block
whose text is `"Tool '<name>' not found"`, nothing is logged, and the
handler does not raise (the dispatcher is a total function). -/
theorem C3_unknown_tool (tk : List Callable) (name : String) (args : Args)
    (h : ∀ c ∈ tk, c.name ≠ name) :
    call_tool_dispatch tk name args =
      { content := [{ type := "text", text := "Tool '" ++ name ++ "' not found" }]
      , log := [] } := by
  have hf : findTool tk name = none := by
    simp only [findTool, List.find?_eq_none, beq_iff_eq]
    exact h
  simp [call_tool_dispatch, hf]

/-- Claim C3 witness: calling the unregistered name `"nope"` on the demo
toolkit yields exactly the text `"Tool 'nope' not found"`. -/
theorem C3_unknown_tool_witness :
    call_tool_dispatch demoToolkit "nope" [] =
      { content := [{ type := "text", text := "Tool 'nope' not found" }]
      , log := [] } :=
  C3_unknown_tool demoToolkit "nope" [] (by decide)

/-- Claim C4: every response of `call_tool` is exactly one `text` content
block; a string result is returned verbatim as that block's text, and a
non-string result is rendered through `str(...)`. -/
theorem C4_single_text_block (tk : List Callable) (name : String) (args : Args) :
    ((call_tool_dispatch tk name args).content.length = 1
      ∧ ∀ b ∈ (call_tool_dispatch tk name args).content, b.type = "text")
  ∧ ∀ c, findTool tk name = some c →
      (∀ s, c.impl args = .ok (.pstr s) →
        (call_tool_dispatch tk name args).content = [{ type := "text", text := s }])
      ∧ (∀ r, c.impl args = .ok r → r.isStr = false →
        (call_tool_dispatch tk name args).content = [{ type := "text", text := pyStr r }]) := by
  refine ⟨?_, ?_⟩
  · obtain ⟨t, ht⟩ := call_tool_dispatch_shape tk name args
    rw [ht]
    exact ⟨rfl, by intro b hb; simp at hb; rw [hb]⟩
  · intro c hc
    refine ⟨?_, ?_⟩
    · intro s hs
      simp [call_tool_dispatch, hc, hs]
    · intro r hr hns
      cases r with
      | pstr s => simp [PyValue.isStr] at hns
      | pint n => simp [call_tool_dispatch, hc, hr, pyStr]
      | pbool b => simp [call_tool_dispatch, hc, hr, pyStr]
      | pnone => simp [call_tool_dispatch, hc, hr, pyStr]

/-- Claim C4 witness: `echo` called with `{"x": "hi"}` returns the string
verbatim as the single text block. -/
theorem C4_single_text_block_witness :
    (call_tool_dispatch demoToolkit "echo" [("x", .pstr "hi")]).content =
      [{ type := "text", text := "hi" }] :=
  ((C4_single_text_block demoToolkit "echo" [("x", .pstr "hi")]).2
    echoCallable rfl).1 "hi" rfl

/-- Claim C2: a registered tool that raises is caught: the response is a
single text block `"Error calling tool <name>: <message>"`, the event is
logged, and `call_tool` still returns normally (`Except.ok`) with the
module state unchanged, so subsequent requests are served. -/
theorem C2_tool_error_caught (tk : List Callable) (name : String) (args : Args)
    (c : Callable) (e : String)
    (hfind : findTool tk name = some c)
    (herr : c.impl args = .error e) :
    (call_tool_dispatch tk name args =
      { content := [{ type := "text"
                    , text := "Error calling tool " ++ name ++ ": " ++ e }]
      , log := ["Error calling tool " ++ name ++ ": " ++ e] })
  ∧ ∀ (factoryE : Config → Except String (List Callable)) (s : SState),
      s.terminal_toolkit = some tk →
      call_toolE factoryE s name args = .ok (s, call_tool_dispatch tk name args) := by
  refine ⟨?_, ?_⟩
  · simp [call_tool_dispatch, hfind, herr]
  · intro factoryE s hs
    simp [call_toolE, hs]

/-- Claim C2 witness: the demo tool `boom` raising `ValueError("bad
input")` yields the text `"Error calling tool boom: bad input"` and the
same message in the log. -/
theorem C2_tool_error_caught_witness :
    call_tool_dispatch demoToolkit "boom" [] =
      { content := [{ type := "text", text := "Error calling tool boom: bad input" }]
      , log := ["Error calling tool boom: bad input"] } :=
  (C2_tool_error_caught demoToolkit "boom" [] boomCallable "bad input" rfl rfl).1

/-- Claim C7: the surfaced schema kind is computed from the declared
type: `str → "string"`, `int → "number"`, `bool → "boolean"`, and every
other annotation — or no annotation at all — falls back to `"string"`;
hence the kind is always one of the three values. -/
theorem C7_kind_classification (p : Param) :
    ((p.annot = some .str → (paramInfoOf p).type = "string")
      ∧ (p.annot = some .int → (paramInfoOf p).type = "number")
      ∧ (p.annot = some .bool → (paramInfoOf p).type = "boolean")
      ∧ (p.annot = none → (paramInfoOf p).type = "string")
      ∧ ∀ t, p.annot = some (.other t) → (paramInfoOf p).type = "string")
  ∧ ((paramInfoOf p).type = "string" ∨ (paramInfoOf p).type = "number"
      ∨ (paramInfoOf p).type = "boolean") := by
  refine ⟨⟨?_, ?_, ?_, ?_, ?_⟩, ?_⟩
  · intro h; simp [paramInfoOf, classifyAnnot, h]
  · intro h; simp [paramInfoOf, classifyAnnot, h]
  · intro h; simp [paramInfoOf, classifyAnnot, h]
  · intro h; simp [paramInfoOf, classifyAnnot, h]
  · intro t h; simp [paramInfoOf, classifyAnnot, h]
  · rcases hp : p.annot with _ | a
    · simp [paramInfoOf, classifyAnnot, hp]
    · cases a <;> simp [paramInfoOf, classifyAnnot, hp]

/-- Claim C7 witness: an `int`-annotated parameter surfaces as
`"number"`. -/
theorem C7_kind_classification_witness :
    (paramInfoOf { name := "n", annot := some .int, default := none }).type
      = "number" :=
  (C7_kind_classification { name := "n", annot := some .int, default := none }).1.2.1 rfl

/-- Claim C6 counterexample: `emptyDocCallable` HAS a documentation
string (the empty string), whose first line trimmed is `""`, yet the
code's `__doc__ or "Execute <name>"` treats the empty string as falsy
and produces the fallback — so the descriptor's description is not the
first line of the docstring trimmed. -/
theorem C6_counterexample :
    emptyDocCallable.doc = some ""
  ∧ (descriptorOf emptyDocCallable).description ≠ pyStrip (firstLine "")
  ∧ (descriptorOf emptyDocCallable).description = "Execute noop" := by
  refine ⟨rfl, ?_, ?_⟩ <;> decide

/-- Claim C6 (amended): the descriptor's description is the first line
of the docstring trimmed whenever the docstring is present and
non-empty; when the docstring is absent OR EMPTY it is the fallback
`"Execute <name>"`.  The hypothesis states, extensionally, that the
callable's identifier contains no newline and no surrounding
whitespace — true of every Python identifier. -/
theorem C6_description (c : Callable)
    (hname : pyStrip (firstLine ("Execute " ++ c.name)) = "Execute " ++ c.name) :
    (∀ s, c.doc = some s → s ≠ "" →
      (descriptorOf c).description = pyStrip (firstLine s))
  ∧ ((c.doc = none ∨ c.doc = some "") →
      (descriptorOf c).description = "Execute " ++ c.name) := by
  refine ⟨?_, ?_⟩
  · intro s hs hne
    simp [descriptorOf, effectiveDoc, hs, hne]
  · rintro (h | h) <;> simp [descriptorOf, effectiveDoc, h, hname]

/-- Claim C6 witness: the undocumented demo tool `boom` gets the
fallback description `"Execute boom"`. -/
theorem C6_description_witness :
    (descriptorOf boomCallable).description = "Execute boom" :=
  (C6_description boomCallable (by decide)).2 (Or.inl rfl)

/-- Membership in the inferred `required` list is exactly "declared and
lacking a default", provided parameter names are distinct (as they are
in every Python signature). -/
theorem mem_required_iff (c : Callable)
    (hnd : ((signatureParams c).map Param.name).Nodup)
    (p : Param) (hp : p ∈ signatureParams c) :
    p.name ∈ (descriptorOf c).required ↔ p.default = none := by
  have hinj := List.inj_on_of_nodup_map hnd
  constructor
  · intro hmem
    simp only [descriptorOf, List.mem_map, List.mem_filter] at hmem
    obtain ⟨q, ⟨hq, hqd⟩, hqn⟩ := hmem
    have hqp : q = p := hinj hq hp hqn
    rw [← hqp]
    exact Option.isNone_iff_eq_none.mp hqd
  · intro hd
    simp only [descriptorOf, List.mem_map, List.mem_filter]
    exact ⟨p, ⟨hp, by simp [hd]⟩, rfl⟩

/-- Claim C1: the descriptor's `parameters` mapping lists exactly the
declared parameters (in order); `required` holds exactly the names of
the parameters lacking a default; and a defaulted parameter appears in
`parameters` with its default recorded and is excluded from
`required`.  Parameter names are assumed distinct, as Python
guarantees for any signature. -/
theorem C1_schema_required_and_parameters (c : Callable)
    (hnd : ((signatureParams c).map Param.name).Nodup) :
    ((descriptorOf c).properties.map Prod.fst = (signatureParams c).map Param.name)
  ∧ (∀ p ∈ signatureParams c,
      (p.name ∈ (descriptorOf c).required ↔ p.default = none))
  ∧ (∀ p ∈ signatureParams c, ∀ v, p.default = some v →
      ((p.name, paramInfoOf p) ∈ (descriptorOf c).properties
        ∧ (paramInfoOf p).default = some v
        ∧ p.name ∉ (descriptorOf c).required)) := by
  refine ⟨?_, ?_, ?_⟩
  · simp [descriptorOf, List.map_map, Function.comp]
  · intro p hp
    exact mem_required_iff c hnd p hp
  · intro p hp v hv
    refine ⟨?_, ?_, ?_⟩
    · simp only [descriptorOf, List.mem_map]
      exact ⟨p, hp, rfl⟩
    · simp [paramInfoOf, hv]
    · intro hmem
      have := (mem_required_iff c hnd p hp).mp hmem
      rw [this] at hv
      exact Option.noConfusion hv

/-- Claim C1 witness: for `shell_exec(self, command: str, block: bool =
True)`, `required` contains `command` but not `block`, and `block`'s
schema records its default. -/
theorem C1_schema_required_and_parameters_witness :
    ("command" : String) ∈ (descriptorOf shellExecCallable).required
  ∧ (("block" : String) ∉ (descriptorOf shellExecCallable).required
      ∧ (paramInfoOf { name := "block", annot := some .bool
                     , default := some (.pbool true) }).default = some (.pbool true)) := by
  have h := C1_schema_required_and_parameters shellExecCallable (by decide)
  refine ⟨?_, ?_, ?_⟩
  · exact (h.2.1 { name := "command", annot := some .str, default := none }
      (by decide)).mpr rfl
  · exact (h.2.2 { name := "block", annot := some .bool, default := some (.pbool true) }
      (by decide) (.pbool true) rfl).2.2
  · exact (h.2.2 { name := "block", annot := some .bool, default := some (.pbool true) }
      (by decide) (.pbool true) rfl).2.1

/-- Claim C8: for a method-backed callable whose underlying `def`
declares the receiver first, the inferred schema covers exactly the
non-receiver parameters: the receiver's name appears neither among the
`parameters` keys nor in `required` (its name being distinct from the
other parameters' names, as Python guarantees). -/
theorem C8_receiver_excluded (c : Callable) (selfP : Param) (rest : List Param)
    (hb : c.isBoundMethod = true) (hp : c.pyParams = selfP :: rest)
    (hs : selfP.name ∉ rest.map Param.name) :
    ((descriptorOf c).properties.map Prod.fst = rest.map Param.name)
  ∧ selfP.name ∉ (descriptorOf c).properties.map Prod.fst
  ∧ selfP.name ∉ (descriptorOf c).required := by
  have hsig : signatureParams c = rest := by
    simp [signatureParams, hb, hp]
  have hkeys : (descriptorOf c).properties.map Prod.fst = rest.map Param.name := by
    simp [descriptorOf, hsig, List.map_map, Function.comp]
  refine ⟨hkeys, ?_, ?_⟩
  · rw [hkeys]; exact hs
  · intro hmem
    simp only [descriptorOf, hsig, List.mem_map, List.mem_filter] at hmem
    obtain ⟨q, ⟨hq, _⟩, hqn⟩ := hmem
    exact hs (List.mem_map.mpr ⟨q, hq, hqn⟩)

/-- Claim C8 witness: `echo(self, x: str)` exposes only `x`; `self` is
in neither `parameters` nor `required`. -/
theorem C8_receiver_excluded_witness :
    ((descriptorOf echoCallable).properties.map Prod.fst
        = [{ name := "x", annot := some PyAnn.str, default := none }].map Param.name)
  ∧ ("self" : String) ∉ (descriptorOf echoCallable).properties.map Prod.fst
  ∧ ("self" : String) ∉ (descriptorOf echoCallable).required :=
  C8_receiver_excluded echoCallable
    { name := "self", annot := none, default := none }
    [{ name := "x", annot := some PyAnn.str, default := none }]
    rfl rfl (by decide)

/-- Claim C9: in any one `list_tools` listing, every name in a
descriptor's `required` is a key of its `parameters`, and descriptor
names are pairwise distinct whenever the toolkit's callables have
pairwise distinct identifiers (which the external toolkit guarantees:
its callables are distinct methods of one class). -/
theorem C9_listing_invariants (tk : List Callable)
    (hnames : (tk.map Callable.name).Nodup) :
    (∀ t ∈ list_tools tk, ∀ r ∈ t.required, r ∈ t.properties.map Prod.fst)
  ∧ ((list_tools tk).map Tool.name).Nodup := by
  constructor
  · intro t ht r hr
    simp only [list_tools, List.mem_map] at ht
    obtain ⟨c, _, rfl⟩ := ht
    simp only [descriptorOf, List.mem_map, List.mem_filter] at hr ⊢
    obtain ⟨q, ⟨hq, _⟩, hqn⟩ := hr
    exact ⟨(q.name, paramInfoOf q), ⟨q, hq, rfl⟩, hqn⟩
  · have hmap : (list_tools tk).map Tool.name = tk.map Callable.name := by
      simp [list_tools, List.map_map, Function.comp, descriptorOf]
    rw [hmap]
    exact hnames

/-- Claim C9 witness: the demo toolkit's three descriptors have
distinct names, and each `required` entry is a `parameters` key. -/
theorem C9_listing_invariants_witness :
    ((list_tools demoToolkit).map Tool.name).Nodup :=
  (C9_listing_invariants demoToolkit (by decide)).2

/-- Once the toolkit is built, no later event rebuilds it or calls the
factory again: the toolkit field and the factory-call counter are
frozen. -/
theorem run_frozen (factory : Config → List Callable) :
    ∀ (es : List Event) (s : SState) (tk : List Callable),
      s.terminal_toolkit = some tk →
      (run factory s es).terminal_toolkit = some tk
      ∧ (run factory s es).factoryCalls = s.factoryCalls := by
  intro es
  induction es with
  | nil => intro s tk h; exact ⟨h, rfl⟩
  | cons e es ih =>
    intro s tk h
    have hrun : run factory s (e :: es) = run factory (step factory s e) es := rfl
    have hstep : (step factory s e).terminal_toolkit = some tk
        ∧ (step factory s e).factoryCalls = s.factoryCalls := by
      cases e <;> simp [step, handleRequest, h]
    have := ih (step factory s e) tk hstep.1
    rw [hrun]
    exact ⟨this.1, by rw [this.2, hstep.2]⟩

/-- From an uninitialized state the factory runs at most once over any
trace, and exactly once as soon as some handler request occurs. -/
theorem run_from_uninitialized (factory : Config → List Callable) :
    ∀ (es : List Event) (k : Config),
      (run factory ⟨none, k, 0⟩ es).factoryCalls ≤ 1
      ∧ ((∃ e ∈ es, e.isHandler = true) →
          (run factory ⟨none, k, 0⟩ es).factoryCalls = 1) := by
  intro es
  induction es with
  | nil =>
    intro k
    refine ⟨Nat.zero_le 1, ?_⟩
    rintro ⟨e, he, -⟩
    exact absurd he (List.not_mem_nil e)
  | cons e es ih =>
    intro k
    cases e with
    | setConfig k' =>
      have hrun : run factory ⟨none, k, 0⟩ (Event.setConfig k' :: es)
          = run factory ⟨none, k', 0⟩ es := rfl
      rw [hrun]
      refine ⟨(ih k').1, ?_⟩
      rintro ⟨e, he, hh⟩
      rcases List.mem_cons.mp he with rfl | he'
      · exact absurd hh (by simp [Event.isHandler])
      · exact (ih k').2 ⟨e, he', hh⟩
    | listReq =>
      have hrun : run factory ⟨none, k, 0⟩ (Event.listReq :: es)
          = run factory ⟨some (factory k), k, 1⟩ es := rfl
      rw [hrun]
      have := (run_frozen factory es ⟨some (factory k), k, 1⟩ (factory k) rfl).2
      rw [this]
      exact ⟨Nat.le_refl 1, fun _ => rfl⟩
    | callReq n a =>
      have hrun : run factory ⟨none, k, 0⟩ (Event.callReq n a :: es)
          = run factory ⟨some (factory k), k, 1⟩ es := rfl
      rw [hrun]
      have := (run_frozen factory es ⟨some (factory k), k, 1⟩ (factory k) rfl).2
      rw [this]
      exact ⟨Nat.le_refl 1, fun _ => rfl⟩

/-- Claim C5: over any trace of `list_tools` / `call_tool` requests and
configuration writes, starting uninitialized, the toolkit factory runs
at most once — exactly once as soon as any handler request occurs —
and when the first request arrives with configuration `k`, the toolkit
stays the one built from `k` forever after, whatever configuration is
supplied later. -/
theorem C5_registry_built_once (factory : Config → List Callable)
    (k : Config) (es : List Event) :
    ((run factory ⟨none, k, 0⟩ es).factoryCalls ≤ 1)
  ∧ ((∃ e ∈ es, e.isHandler = true) →
      (run factory ⟨none, k, 0⟩ es).factoryCalls = 1)
  ∧ (∀ es' : List Event,
      (run factory ⟨none, k, 0⟩ (Event.listReq :: es')).terminal_toolkit
        = some (factory k)) := by
  refine ⟨(run_from_uninitialized factory es k).1,
          (run_from_uninitialized factory es k).2, ?_⟩
  intro es'
  have hrun : run factory ⟨none, k, 0⟩ (Event.listReq :: es')
      = run factory ⟨some (factory k), k, 1⟩ es' := rfl
  rw [hrun]
  exact (run_frozen factory es' ⟨some (factory k), k, 1⟩ (factory k) rfl).1

/-- Claim C5 witness: a trace interleaving both handlers and a late
configuration write calls the factory exactly once. -/
theorem C5_registry_built_once_witness :
    (run (fun _ => demoToolkit) ⟨none, [], 0⟩
        [Event.listReq, Event.setConfig [("timeout", .pint 30)],
         Event.callReq "echo" [("x", .pstr "hi")]]).factoryCalls = 1 :=
  (C5_registry_built_once (fun _ => demoToolkit) []
      [Event.listReq, Event.setConfig [("timeout", .pint 30)],
       Event.callReq "echo" [("x", .pstr "hi")]]).2.1
    ⟨Event.listReq, by simp, rfl⟩

/-- Claim C10: the lazy-initialization step of `call_tool` runs before
the `try:` region, so a toolkit-construction failure propagates out of
the handler as an error instead of becoming a text response; once the
toolkit exists, `call_tool` always returns normally whatever the tool
does. -/
theorem C10_init_failure_propagates
    (factoryE : Config → Except String (List Callable)) (s : SState)
    (name : String) (args : Args) :
    (∀ e, s.terminal_toolkit = none → factoryE s.toolkit_kwargs = .error e →
      call_toolE factoryE s name args = .error e)
  ∧ (∀ tk, s.terminal_toolkit = some tk →
      call_toolE factoryE s name args
        = .ok (s, call_tool_dispatch tk name args)) := by
  refine ⟨?_, ?_⟩
  · intro e hnone herr
    simp [call_toolE, initialize_toolkitE, Except.map, hnone, herr]
  · intro tk hsome
    simp [call_toolE, hsome]

/-- Claim C10 witness: with an uninitialized registry and a factory
that raises on the captured configuration, `call_tool` surfaces the
construction error rather than any text response. -/
theorem C10_init_failure_propagates_witness :
    call_toolE (fun _ => .error "bad configuration")
        ⟨none, [("working_directory", .pstr "/nope")], 0⟩ "echo" []
      = .error "bad configuration" :=
  (C10_init_failure_propagates (fun _ => .error "bad configuration")
      ⟨none, [("working_directory", .pstr "/nope")], 0⟩ "echo" []).1
    "bad configuration" rfl rfl

end CamelTerminalToolkit
